import Mathlib

/-!
Shallow embedding of imageio/testing.py: directive parsing for the style
checker, the style-check walk, the scratch test directory, the suite runner,
the per-file style invocation with its argv save/restore, the stdout
relativizer, and the patched pytest per-test call.  Python strings are
modelled as Lean strings; the string helpers below are structural
re-implementations of the Python operations the source uses, so that all
definitions evaluate by kernel reduction.
-/

namespace ImageioTesting

/-- Python whitespace stripped by str.strip with no argument
(space, tab, newline, carriage return, vertical tab, form feed). -/
def pySpace (c : Char) : Bool :=
  c = ' ' || c = '\t' || c = '\n' || c = '\r' || c = '\x0b' || c = '\x0c'

/-- Python s.strip() on a list of characters. -/
def stripList (l : List Char) : List Char :=
  ((l.dropWhile pySpace).reverse.dropWhile pySpace).reverse

/-- Python str.split(sep) with a one-character separator: keeps empty pieces,
and the empty string splits to one empty piece. -/
def splitChar (c : Char) : List Char → List (List Char)
  | [] => [[]]
  | x :: xs =>
    match splitChar c xs with
    | [] => if x = c then [[], [x]] else [[x]]
    | h :: t => if x = c then [] :: h :: t else (x :: h) :: t

/-- Python sub in s (substring containment). -/
def pyContains (s sub : String) : Bool :=
  (List.range (s.toList.length + 1)).any (fun i => sub.toList.isPrefixOf (s.toList.drop i))

/-- Python s.startswith(pre). -/
def pyStartsWith (s pre : String) : Bool :=
  pre.toList.isPrefixOf s.toList

/-- Python s.endswith(suf). -/
def pyEndsWith (s suf : String) : Bool :=
  suf.toList.reverse.isPrefixOf s.toList.reverse

/-- Python sep.join(parts). -/
def joinWith (sep : String) : List String → String
  | [] => ""
  | [x] => x
  | x :: y :: t => x ++ sep ++ joinWith sep (y :: t)

/-- Token filter from _get_style_test_options: w[1:].isnumeric() and
w[0] in the letter set EWFCN. -/
def isIgnoreCode (w : List Char) : Bool :=
  match w with
  | [] => false
  | c :: rest =>
    (!rest.isEmpty && rest.all Char.isDigit) &&
      (c = 'E' || c = 'W' || c = 'F' || c = 'C' || c = 'N')

/-- Tokens contributed by one ignore directive line: commas replaced by
spaces, split on spaces, stripped, empties dropped, then kept only when
shaped like a diagnostic code. -/
def directiveIgnoreWords (line : String) : List String :=
  let repl := line.toList.map (fun c => if c = ',' then ' ' else c)
  let ws := (splitChar ' ' repl).map stripList
  let ws := ws.filter (fun w => !w.isEmpty)
  (ws.filter isIgnoreCode).map (fun w => String.mk w)

/-- Loop body of _get_style_test_options: scan lines carrying their
enumerate index, stopping once the index exceeds 20. -/
def styleOptionsAux : Nat → List String → Bool → List String → Bool × List String
  | _, [], skp, igns => (skp, igns)
  | i, line :: rest, skp, igns =>
    if i > 20 then (skp, igns)
    else if pyStartsWith line "# styletest:" then
      if pyContains line "skip" then styleOptionsAux (i + 1) rest true igns
      else if pyContains line "ignore" then
        styleOptionsAux (i + 1) rest skp (igns ++ directiveIgnoreWords line)
      else styleOptionsAux (i + 1) rest skp igns
    else styleOptionsAux (i + 1) rest skp igns

/-- Returns (skip, ignores) for a source file given as its list of lines
(text.splitlines()). -/
def _get_style_test_options (lines : List String) : Bool × List String :=
  styleOptionsAux 0 lines false []

/-! The style-check walk (test_style).  The filesystem traversal done by
os.walk is an external interaction; it enters the model as data: the list of
(relative directory path, files) pairs the walk yields, each file being its
name together with its list of lines.  The flake8 invocation is an external
tool; it enters as an oracle from filename and ignore list to a failure
flag.  The run is recorded as a list of events. -/

/-- Observable events of a style-check run. -/
inductive Ev where
  | wrapStdout
  | checkFile (filename : String) (ignores : List String)
  | printMsg (msg : String)
  | flushOut
  | revertStdout
  | raiseError (msg : String)
deriving DecidableEq

/-- Fixed global ignore list of test_style. -/
def globalIgnores : List String := ["E226", "E241", "E265", "W291", "W293"]

/-- Directory names excluded from the walk. -/
def excludeDirs : List String := [".git", "docs", "build", "dist", "__pycache__"]

/-- Exclusion test of test_style: the relative dir path is split on the
path separator and intersected with the excluded names. -/
def dirExcluded (rel : String) : Bool :=
  (splitChar '/' rel.toList).any (fun comp => excludeDirs.any (fun e => e.toList = comp))

/-- os.path.join of the root, a relative directory and a file name. -/
def joinPath (root rel fname : String) : String :=
  root ++ "/" ++ rel ++ "/" ++ fname

/-- One yielded directory of the walk: its path relative to the root, and
its files (name, lines). -/
abbrev WalkDir := String × List (String × List String)

/-- Python-source files the walk offers for checking: directories whose
relative path meets the exclusion set are dropped, and in each remaining
directory the files ending in .py are kept, joined to full filenames. -/
def pyFilesOf (root : String) (walk : List WalkDir) : List (String × List String) :=
  (walk.filter (fun d => !dirExcluded d.1)).flatMap
    (fun d => (d.2.filter (fun f => pyEndsWith f.1 ".py")).map
      (fun f => (joinPath root d.1 f.1, f.2)))

/-- Inner loop of test_style over the checkable files: directive options are
read per file, a skipped file is passed over, otherwise the file is counted
and checked with the global ignores plus its own extra ignores; a failing
file sets the failure flag and prints a separator; stdout is flushed after
each checked file. -/
def styleLoop (checker : String → List String → Bool) :
    List (String × List String) → Bool → Nat → Bool × Nat × List Ev
  | [], fail, count => (fail, count, [])
  | (filename, lines) :: rest, fail, count =>
    let opts := _get_style_test_options lines
    if opts.1 then styleLoop checker rest fail count
    else
      let igns := globalIgnores ++ opts.2
      let thisfail := checker filename igns
      let evsHere :=
        if thisfail then [Ev.checkFile filename igns, Ev.printMsg "----", Ev.flushOut]
        else [Ev.checkFile filename igns, Ev.flushOut]
      let r := styleLoop checker rest (fail || thisfail) (count + 1)
      (r.1, r.2.1, evsHere ++ r.2.2)

/-- Final report of test_style from the failure flag and the checked-file
count: a RuntimeError when nothing was checked, a RuntimeError naming the
count when some file failed, a success message naming the count otherwise. -/
def styleReport (fail : Bool) (count : Nat) : Ev :=
  if count = 0 then Ev.raiseError "    Arg! flake8 did not check any files"
  else if fail then
    Ev.raiseError ("    Arg! flake8 failed (checked " ++ toString count ++ " files)")
  else Ev.printMsg ("    Hooray! flake8 passed (checked " ++ toString count ++ " files)")

/-- Event trace of a test_style run (with flake8 available): wrap stdout,
check the walked files, revert stdout, then report. -/
def test_style (checker : String → List String → Bool) (root : String)
    (walk : List WalkDir) : List Ev :=
  let r := styleLoop checker (pyFilesOf root walk) false 0
  Ev.wrapStdout :: (r.2.2 ++ [Ev.revertStdout, styleReport r.1 r.2.1])

/-! The stdout relativizer (FileForTesting) and os.path.relpath. -/

/-- Path components of an absolute POSIX path after normalization: empty
and dot components vanish, a dot-dot component pops. -/
def normCompsAux : List (List Char) → List (List Char) → List (List Char)
  | [], acc => acc.reverse
  | c :: rest, acc =>
    if c = [] || c = ['.'] then normCompsAux rest acc
    else if c = ['.', '.'] then normCompsAux rest acc.tail
    else normCompsAux rest (c :: acc)

/-- Normalized components of an absolute path string. -/
def absComps (p : String) : List (List Char) :=
  normCompsAux (splitChar '/' p.toList) []

/-- Length of the longest common prefix of two component lists. -/
def commonPrefixLen : List (List Char) → List (List Char) → Nat
  | a :: as, b :: bs => if a = b then commonPrefixLen as bs + 1 else 0
  | _, _ => 0

/-- os.path.relpath(path, start) for absolute POSIX inputs. -/
def relpath (path start : String) : String :=
  let p := absComps path
  let s := absComps start
  let i := commonPrefixLen s p
  let rel := List.replicate (s.length - i) ".." ++ (p.drop i).map String.mk
  if rel.isEmpty then "." else joinWith "/" rel

/-- State of the wrapped original stdout: what has been written to it and
how many times it has been flushed. -/
structure Sink where
  written : List String
  flushes : Nat
deriving DecidableEq

/-- FileForTesting.write: a message starting with the root is replaced by
its path relative to the root; the message is written to the original and
the original is flushed. -/
def FileForTesting.write (root : String) (sink : Sink) (msg : String) : Sink :=
  let m := if pyStartsWith msg root then relpath msg root else msg
  { written := sink.written ++ [m], flushes := sink.flushes + 1 }

/-! The scratch test directory (get_test_dir). -/

/-- Filesystem model: the existing directories, each with its entries. -/
structure FS where
  dirs : List (String × List String)
deriving DecidableEq

/-- os.path.isdir. -/
def FS.isdir (fs : FS) (p : String) : Bool :=
  fs.dirs.any (fun d => d.1 = p)

/-- shutil.rmtree: the directory and everything below it disappear. -/
def FS.rmtree (fs : FS) (p : String) : FS :=
  ⟨fs.dirs.filter (fun d => !(d.1 = p || pyStartsWith d.1 (p ++ "/")))⟩

/-- os.makedirs: the directory exists afterwards, empty. -/
def FS.makedirs (fs : FS) (p : String) : FS :=
  ⟨(p, []) :: fs.dirs⟩

/-- Entries of a directory, when it exists. -/
def FS.contents (fs : FS) (p : String) : Option (List String) :=
  (fs.dirs.find? (fun d => d.1 = p)).map Prod.snd

/-- Process state seen by get_test_dir: the module-level cached path, the
filesystem, and the paths whose removal has been registered at exit. -/
structure TestDirState where
  the_test_dir : Option String
  fs : FS
  atexitHooks : List String
deriving DecidableEq

/-- get_test_dir: on first call compute the path under the appdata
directory, clear any pre-existing directory there, create it, and register
its removal at process exit; afterwards return the cached path unchanged. -/
def get_test_dir (appdata : String) (s : TestDirState) : String × TestDirState :=
  match s.the_test_dir with
  | some p => (p, s)
  | none =>
    let p := appdata ++ "/testdir"
    let fs1 := if s.fs.isdir p then s.fs.rmtree p else s.fs
    let fs2 := fs1.makedirs p
    (p, { the_test_dir := some p, fs := fs2, atexitHooks := s.atexitHooks ++ [p] })

/-! The suite runner (test_unit).  pytest.main is an external tool; it
enters as an oracle from the argument string and the process state to a
result (a returned exit code or a raised exception) and a successor state,
so the runner may itself move the working directory or touch modules. -/

/-- Process state seen by test_unit: working directory, loaded module
names, printed messages, and whether the faulthandler is enabled. -/
structure ProcState where
  cwd : String
  modules : List String
  printed : List String
  faulthandlerOn : Bool
deriving DecidableEq

/-- _clear_imageio: every module whose name starts with imageio is removed
from the module cache. -/
def _clear_imageio (s : ProcState) : ProcState :=
  { s with modules := s.modules.filter (fun m => !pyStartsWith m "imageio") }

/-- _enable_faulthandler: try to enable the faulthandler; report success or
failure, never raise. -/
def _enable_faulthandler (canEnable : Bool) (s : ProcState) : ProcState :=
  if canEnable then
    { s with faulthandlerOn := true, printed := s.printed ++ ["Faulthandler enabled"] }
  else { s with printed := s.printed ++ ["Could not enable faulthandler"] }

/-- Argument string test_unit hands to pytest.main. -/
def test_unit_args (cov_report : String) : String :=
  "-v --cov imageio --cov-config .coveragerc --cov-report " ++ cov_report ++ " tests"

/-- test_unit: save the working directory, move to the root, clear the
imageio modules, enable the faulthandler, run pytest over the tests, and
restore the working directory whether the run returns or raises. -/
def test_unit (root cov_report : String)
    (pymain : String → ProcState → Except String Int × ProcState)
    (canEnable : Bool) (s : ProcState) : Except String Int × ProcState :=
  let origDir := s.cwd
  let s1 := { s with cwd := root }
  let s2 := _clear_imageio s1
  let s3 := _enable_faulthandler canEnable s2
  let r := pymain (test_unit_args cov_report) s3
  (r.1, { r.2 with cwd := origDir })

/-! The per-file style invocation (_test_style) and its argv handling.
sys.argv names a mutable list object; orig_argv = sys.argv copies the
reference, not the contents, so the state carries a heap of list objects
and sys.argv as an index into it.  flake8's main is an external tool; it
enters as an oracle from the argv contents to the SystemExit code it
raises (None for a bare sys.exit()). -/

/-- Process state seen by _test_style: working directory, heap of list
objects, and the index of the object sys.argv denotes. -/
structure ArgvState where
  cwd : String
  heap : List (List String)
  argvRef : Nat
deriving DecidableEq

/-- Contents of the list object sys.argv denotes. -/
def ArgvState.argv (s : ArgvState) : List String :=
  s.heap.getD s.argvRef []

/-- In-place overwrite of the contents of one heap object. -/
def ArgvState.setObj (s : ArgvState) (i : Nat) (v : List String) : ArgvState :=
  { s with heap := s.heap.set i v }

/-- _test_style: join the ignore list, save the working directory and the
argv reference, move to the root, slice-assign the argv tail to the
filename, append the ignore option, run flake8 (which exits with a code),
then restore the working directory and slice-assign argv from the saved
reference; a missing or zero exit code means the file passed. -/
def _test_style (root filename : String) (ignore : List String)
    (flakeExit : List String → Option Int) (s : ArgvState) : Bool × ArgvState :=
  let ignoreStr := joinWith "," ignore
  let origDir := s.cwd
  let origArgvRef := s.argvRef
  let s1 := { s with cwd := root }
  let s2 := s1.setObj s1.argvRef (s1.argv.take 1 ++ [filename])
  let s3 := s2.setObj s2.argvRef (s2.argv ++ ["--ignore=" ++ ignoreStr])
  let code := flakeExit s3.argv
  let s4 := { s3 with cwd := origDir }
  let s5 := s4.setObj s4.argvRef (s4.heap.getD origArgvRef [])
  (match code with
   | none => false
   | some c => !(c = 0), s5)

/-! The patched per-test call (pytest_runtest_call).  The wrapped original
runner enters as an oracle from the test item to either success or a raised
exception carrying its class name, whether that class is a subclass of
Exception (except Exception catches nothing else), and the traceback frames
below the wrapper's own frame. -/

/-- A raised Python exception object. -/
structure PyExc where
  typeName : String
  isExcSubclass : Bool
deriving DecidableEq

/-- The well-known postmortem debugging slots sys.last_type,
sys.last_value, sys.last_traceback. -/
structure DebugSlots where
  last_type : Option String
  last_value : Option PyExc
  last_traceback : Option (List String)
deriving DecidableEq

/-- pytest_runtest_call: run the wrapped original; when it raises an
Exception, take sys.exc_info() (whose traceback starts at this wrapper's
frame), advance the traceback one frame, store type, value and traceback in
the debugging slots, and re-raise the same exception; anything the except
clause does not catch propagates with the slots untouched. -/
def pytest_runtest_call (orig : String → Option (PyExc × List String))
    (item : String) (slots : DebugSlots) :
    Option (PyExc × List String) × DebugSlots :=
  match orig item with
  | none => (none, slots)
  | some (e, frames) =>
    if e.isExcSubclass then
      let tb := "pytest_runtest_call" :: frames
      let tbNext := tb.tail
      (some (e, frames),
       { last_type := some e.typeName, last_value := some e,
         last_traceback := some tbNext })
    else (some (e, frames), slots)

/-! Derived notions used to state properties of the definitions above. -/

/-- A line that triggers the skip branch of the directive scan: it starts
with the directive marker and contains the skip keyword. -/
def lineIsSkipDirective (l : String) : Bool :=
  pyStartsWith l "# styletest:" && pyContains l "skip"

/-- Projection of a check event. -/
def evCheck : Ev → Option (String × List String)
  | Ev.checkFile f i => some (f, i)
  | _ => none

/-- The files of a list that the directive scan does not mark for
skipping. -/
def nonSkipped (files : List (String × List String)) : List (String × List String) :=
  files.filter (fun f => !(_get_style_test_options f.2).1)

/-- The ignore list handed to the checking tool for one file: the global
list followed by the file's own directive tokens. -/
def fileIgnores (f : String × List String) : List String :=
  globalIgnores ++ (_get_style_test_options f.2).2

/-- Whether some checked file of the list fails under the checker. -/
def styleFail (checker : String → List String → Bool)
    (files : List (String × List String)) : Bool :=
  (nonSkipped files).any (fun f => checker f.1 (fileIgnores f))

/-! Helper lemmas. -/

/-- Scanning stops after index 20: the scan of a list of lines starting at
index k agrees with the scan of its first 21 - k lines. -/
theorem styleOptionsAux_take (l : List String) :
    ∀ (k : Nat) (s : Bool) (g : List String), k ≤ 21 →
      styleOptionsAux k l s g = styleOptionsAux k (l.take (21 - k)) s g := by
  induction l with
  | nil => intro k s g _; simp
  | cons a l ih =>
    intro k s g hk
    by_cases h20 : k > 20
    · have hk21 : k = 21 := by omega
      subst hk21
      simp [styleOptionsAux]
    · have hstep : 21 - k = (21 - (k + 1)) + 1 := by omega
      rw [hstep, List.take_succ_cons]
      simp only [styleOptionsAux]
      rw [if_neg h20, if_neg h20]
      by_cases hm : pyStartsWith a "# styletest:" = true
      · rw [if_pos hm, if_pos hm]
        by_cases hs : pyContains a "skip" = true
        · rw [if_pos hs, if_pos hs]
          exact ih (k + 1) true g (by omega)
        · rw [if_neg hs, if_neg hs]
          by_cases hi : pyContains a "ignore" = true
          · rw [if_pos hi, if_pos hi]
            exact ih (k + 1) s (g ++ directiveIgnoreWords a) (by omega)
          · rw [if_neg hi, if_neg hi]
            exact ih (k + 1) s g (by omega)
      · rw [if_neg hm, if_neg hm]
        exact ih (k + 1) s g (by omega)

/-- The skip flag produced by the scan is the initial flag joined with
whether some scanned line is a skip directive line. -/
theorem styleOptionsAux_skip (l : List String) :
    ∀ (k : Nat) (s : Bool) (g : List String), k ≤ 21 →
      (styleOptionsAux k l s g).1
        = (s || (l.take (21 - k)).any lineIsSkipDirective) := by
  induction l with
  | nil => intro k s g _; simp [styleOptionsAux]
  | cons a l ih =>
    intro k s g hk
    by_cases h20 : k > 20
    · have hk21 : k = 21 := by omega
      subst hk21
      simp [styleOptionsAux]
    · have hstep : 21 - k = (21 - (k + 1)) + 1 := by omega
      rw [hstep, List.take_succ_cons]
      simp only [styleOptionsAux]
      rw [if_neg h20]
      by_cases hm : pyStartsWith a "# styletest:" = true
      · rw [if_pos hm]
        by_cases hs : pyContains a "skip" = true
        · rw [if_pos hs]
          rw [ih (k + 1) true g (by omega)]
          simp [lineIsSkipDirective, hm, hs]
        · rw [if_neg hs]
          have hline : lineIsSkipDirective a = false := by
            simp [lineIsSkipDirective, hm]
            simpa using hs
          by_cases hi : pyContains a "ignore" = true
          · rw [if_pos hi]
            rw [ih (k + 1) s (g ++ directiveIgnoreWords a) (by omega)]
            simp [hline]
          · rw [if_neg hi]
            rw [ih (k + 1) s g (by omega)]
            simp [hline]
      · rw [if_neg hm]
        have hline : lineIsSkipDirective a = false := by
          simp [lineIsSkipDirective]
          intro hpre
          exact absurd hpre hm
        rw [ih (k + 1) s g (by omega)]
        simp [hline]

/-- Every token of one ignore directive line is shaped like a diagnostic
code. -/
theorem mem_directiveIgnoreWords (line w : String)
    (h : w ∈ directiveIgnoreWords line) : isIgnoreCode w.toList = true := by
  unfold directiveIgnoreWords at h
  obtain ⟨v, hv, hw⟩ := List.mem_map.1 h
  have hcode := (List.mem_filter.1 hv).2
  subst hw
  simpa using hcode

/-- Every token accumulated by the directive scan is an inherited one or is
shaped like a diagnostic code. -/
theorem styleOptionsAux_mem_ignores (l : List String) :
    ∀ (k : Nat) (s : Bool) (g : List String) (w : String),
      w ∈ (styleOptionsAux k l s g).2 → w ∈ g ∨ isIgnoreCode w.toList = true := by
  induction l with
  | nil => intro k s g w h; exact Or.inl (by simpa [styleOptionsAux] using h)
  | cons a l ih =>
    intro k s g w h
    by_cases h20 : k > 20
    · exact Or.inl (by simpa [styleOptionsAux, h20] using h)
    · simp only [styleOptionsAux] at h
      rw [if_neg h20] at h
      by_cases hm : pyStartsWith a "# styletest:" = true
      · rw [if_pos hm] at h
        by_cases hs : pyContains a "skip" = true
        · rw [if_pos hs] at h
          exact ih _ _ _ _ h
        · rw [if_neg hs] at h
          by_cases hi : pyContains a "ignore" = true
          · rw [if_pos hi] at h
            rcases ih _ _ _ _ h with hg | hc
            · rcases List.mem_append.1 hg with h1 | h2
              · exact Or.inl h1
              · exact Or.inr (mem_directiveIgnoreWords a w h2)
            · exact Or.inr hc
          · rw [if_neg hi] at h
            exact ih _ _ _ _ h
      · rw [if_neg hm] at h
        exact ih _ _ _ _ h

/-- The check events of the loop are exactly the non-skipped files, each
paired with the global ignores followed by its own extra ignores. -/
theorem styleLoop_checks (checker : String → List String → Bool) :
    ∀ (files : List (String × List String)) (fail : Bool) (count : Nat),
      (styleLoop checker files fail count).2.2.filterMap evCheck
        = (nonSkipped files).map (fun f => (f.1, fileIgnores f)) := by
  intro files
  induction files with
  | nil => intro fail count; simp [styleLoop, nonSkipped]
  | cons f rest ih =>
    intro fail count
    obtain ⟨fn, ls⟩ := f
    by_cases hskip : (_get_style_test_options ls).1 = true
    · simp only [styleLoop, hskip, if_true, nonSkipped, List.filter_cons,
        Bool.not_eq_true']
      rw [ih]
      simp [nonSkipped, hskip]
    · have hskip' : (_get_style_test_options ls).1 = false := by
        simpa using hskip
      simp only [styleLoop, hskip', Bool.false_eq_true, if_false]
      by_cases hf : checker fn (globalIgnores ++ (_get_style_test_options ls).2) = true
      · simp only [hf, if_true, List.filterMap_append]
        rw [ih]
        simp [evCheck, nonSkipped, hskip', fileIgnores]
      · simp only [hf, Bool.false_eq_true, if_false]
        simp only [eq_false_of_ne_true hf, if_false, List.filterMap_append]
        rw [ih]
        simp [evCheck, nonSkipped, hskip', fileIgnores]

/-- The final count of the loop is the starting count plus the number of
non-skipped files. -/
theorem styleLoop_count (checker : String → List String → Bool) :
    ∀ (files : List (String × List String)) (fail : Bool) (count : Nat),
      (styleLoop checker files fail count).2.1 = count + (nonSkipped files).length := by
  intro files
  induction files with
  | nil => intro fail count; simp [styleLoop, nonSkipped]
  | cons f rest ih =>
    intro fail count
    obtain ⟨fn, ls⟩ := f
    by_cases hskip : (_get_style_test_options ls).1 = true
    · simp only [styleLoop, hskip, if_true]
      rw [ih]
      simp [nonSkipped, hskip]
    · have hskip' : (_get_style_test_options ls).1 = false := by
        simpa using hskip
      simp only [styleLoop, hskip', Bool.false_eq_true, if_false]
      rw [ih]
      simp [nonSkipped, hskip']
      omega

/-- The final failure flag of the loop is the starting flag joined with
whether some non-skipped file fails under the checker. -/
theorem styleLoop_fail (checker : String → List String → Bool) :
    ∀ (files : List (String × List String)) (fail : Bool) (count : Nat),
      (styleLoop checker files fail count).1 = (fail || styleFail checker files) := by
  intro files
  induction files with
  | nil => intro fail count; simp [styleLoop, styleFail, nonSkipped]
  | cons f rest ih =>
    intro fail count
    obtain ⟨fn, ls⟩ := f
    by_cases hskip : (_get_style_test_options ls).1 = true
    · simp only [styleLoop, hskip, if_true]
      rw [ih]
      simp [styleFail, nonSkipped, hskip]
    · have hskip' : (_get_style_test_options ls).1 = false := by
        simpa using hskip
      simp only [styleLoop, hskip', Bool.false_eq_true, if_false]
      rw [ih]
      simp only [styleFail, nonSkipped, List.filter_cons, hskip', Bool.not_false,
        if_true, List.any_cons, fileIgnores]
      cases fail <;> cases hc : checker fn (globalIgnores ++ (_get_style_test_options ls).2) <;>
        simp [hc]

/-- Dropping a skip-marked file from the checked list leaves the loop
result unchanged. -/
theorem styleLoop_skip_drop (checker : String → List String → Bool)
    (fn : String) (ls : List String)
    (h : (_get_style_test_options ls).1 = true) :
    ∀ (pre post : List (String × List String)) (fail : Bool) (count : Nat),
      styleLoop checker (pre ++ (fn, ls) :: post) fail count
        = styleLoop checker (pre ++ post) fail count := by
  intro pre
  induction pre with
  | nil =>
    intro post fail count
    simp [styleLoop, h]
  | cons q pre ih =>
    intro post fail count
    obtain ⟨qf, ql⟩ := q
    simp only [List.cons_append, styleLoop]
    by_cases hq : (_get_style_test_options ql).1 = true
    · rw [if_pos hq, if_pos hq]
      exact ih post fail count
    · rw [if_neg hq, if_neg hq]
      simp only [List.append_eq]
      rw [ih]

/-! Claim theorems. -/

/-- Claim C1 (counterexample): a skip directive on the 21st line of a file,
which lies after the first 20 lines, does have an effect: the file is
marked for skipping, while the same file without that line is not. -/
theorem style_directive_line21_honored :
    (_get_style_test_options (List.replicate 20 "" ++ ["# styletest: skip"])).1 = true
    ∧ (_get_style_test_options (List.replicate 20 "")).1 = false := by decide

/-- Claim C1 (amended): directives are honored exactly when they occur
within the first 21 lines of the file: the directive scan depends only on
the first 21 lines, a skip directive on the 21st line is honored, and one
on the 22nd line is not. -/
theorem style_scan_window (lines : List String) :
    _get_style_test_options lines = _get_style_test_options (lines.take 21)
    ∧ (_get_style_test_options (List.replicate 20 "x" ++ ["# styletest: skip"])).1 = true
    ∧ (_get_style_test_options (List.replicate 21 "x" ++ ["# styletest: skip"])).1 = false := by
  refine ⟨?_, by decide, by decide⟩
  unfold _get_style_test_options
  exact styleOptionsAux_take lines 0 false [] (by omega)

/-- Claim C2: the process argv is not restored by _test_style: the saved
value is a reference to the argv list object itself, the mutations hit that
same object, and the closing slice assignment copies the object onto
itself, so after the call argv holds the filename and the ignore option
instead of its pre-call value (while the working directory is restored). -/
theorem _test_style_argv_not_restored :
    (ArgvState.argv
        (_test_style "/root" "a.py" ["E226"] (fun _ => some 0)
          ⟨"/cwd", [["prog", "x"]], 0⟩).2 = ["prog", "a.py", "--ignore=E226"])
    ∧ ¬ (ArgvState.argv
          (_test_style "/root" "a.py" ["E226"] (fun _ => some 0)
            ⟨"/cwd", [["prog", "x"]], 0⟩).2
        = ArgvState.argv ⟨"/cwd", [["prog", "x"]], 0⟩)
    ∧ (_test_style "/root" "a.py" ["E226"] (fun _ => some 0)
        ⟨"/cwd", [["prog", "x"]], 0⟩).2.cwd = "/cwd" := by decide

/-- Claim C3: a test_style run emits its events as a wrap of stdout, the
per-file events, a revert of stdout, and then the report, so the original
stdout is restored before the outcome is reported; the report is a
configuration error when zero files were checked, an aggregate error naming
the checked-file count when some file failed, and a success summary naming
the count otherwise. -/
theorem test_style_outcomes (checker : String → List String → Bool) (root : String)
    (walk : List WalkDir) :
    (test_style checker root walk
      = Ev.wrapStdout :: ((styleLoop checker (pyFilesOf root walk) false 0).2.2
          ++ [Ev.revertStdout,
              styleReport (styleFail checker (pyFilesOf root walk))
                (nonSkipped (pyFilesOf root walk)).length]))
    ∧ (∀ (fl : Bool) (n : Nat),
        (n = 0 → styleReport fl n = Ev.raiseError "    Arg! flake8 did not check any files")
        ∧ (¬ n = 0 → fl = true → styleReport fl n
            = Ev.raiseError ("    Arg! flake8 failed (checked " ++ toString n ++ " files)"))
        ∧ (¬ n = 0 → fl = false → styleReport fl n
            = Ev.printMsg ("    Hooray! flake8 passed (checked " ++ toString n ++ " files)"))) := by
  constructor
  · simp only [test_style]
    rw [styleLoop_fail, styleLoop_count]
    simp
  · intro fl n
    refine ⟨fun h0 => by simp [styleReport, h0], fun h0 hf => ?_, fun h0 hf => ?_⟩
    · simp [styleReport, h0, hf]
    · simp [styleReport, h0, hf]

/-- Claim C3 (witness): with one checked failing file the report is the
aggregate error naming one checked file. -/
theorem test_style_outcomes_w :
    styleReport true 1 = Ev.raiseError "    Arg! flake8 failed (checked 1 files)" :=
  ((test_style_outcomes (fun _ _ => true) "/r" [(".", [("a.py", [])])]).2 true 1).2.1
    (by decide) rfl

/-- Claim C4: on a first call (no cached path) get_test_dir returns a path
whose directory exists and is empty, any pre-existing directory there
having been cleared, and a second call returns the identical path with the
state unchanged. -/
theorem get_test_dir_spec (appdata : String) (s : TestDirState)
    (h : s.the_test_dir = none) :
    ((get_test_dir appdata s).2.fs.contents (get_test_dir appdata s).1 = some [])
    ∧ (get_test_dir appdata (get_test_dir appdata s).2).1 = (get_test_dir appdata s).1
    ∧ (get_test_dir appdata (get_test_dir appdata s).2).2 = (get_test_dir appdata s).2 := by
  simp [get_test_dir, h, FS.contents, FS.makedirs]

/-- Claim C4 (witness): from a fresh state whose filesystem holds a stale
scratch directory with a file in it, the calls behave as specified. -/
theorem get_test_dir_spec_w :
    ((get_test_dir "/app" ⟨none, ⟨[("/app/testdir", ["stale"])]⟩, []⟩).2.fs.contents
        (get_test_dir "/app" ⟨none, ⟨[("/app/testdir", ["stale"])]⟩, []⟩).1 = some [])
    ∧ (get_test_dir "/app"
          (get_test_dir "/app" ⟨none, ⟨[("/app/testdir", ["stale"])]⟩, []⟩).2).1
        = (get_test_dir "/app" ⟨none, ⟨[("/app/testdir", ["stale"])]⟩, []⟩).1
    ∧ (get_test_dir "/app"
          (get_test_dir "/app" ⟨none, ⟨[("/app/testdir", ["stale"])]⟩, []⟩).2).2
        = (get_test_dir "/app" ⟨none, ⟨[("/app/testdir", ["stale"])]⟩, []⟩).2 :=
  get_test_dir_spec "/app" ⟨none, ⟨[("/app/testdir", ["stale"])]⟩, []⟩ rfl

/-- Claim C5: a file whose scanned leading lines contain a skip directive
contributes nothing to the style-check loop: removing it from the checked
list leaves the failure flag, the checked-file count and the emitted events
unchanged, so the tool is never invoked on it and it is not counted. -/
theorem style_skip_file_excluded (checker : String → List String → Bool)
    (fn : String) (ls : List String)
    (pre post : List (String × List String)) (fail : Bool) (count : Nat)
    (h : (ls.take 21).any lineIsSkipDirective = true) :
    styleLoop checker (pre ++ (fn, ls) :: post) fail count
      = styleLoop checker (pre ++ post) fail count := by
  have hskip : (_get_style_test_options ls).1 = true := by
    unfold _get_style_test_options
    rw [styleOptionsAux_skip ls 0 false [] (by omega)]
    simpa using h
  exact styleLoop_skip_drop checker fn ls hskip pre post fail count

/-- Claim C5 (witness): a file carrying a skip directive and an ignore
directive on other lines is excluded from a concrete run. -/
theorem style_skip_file_excluded_w :
    styleLoop (fun _ _ => false)
        ([] ++ ("a.py", ["# styletest: skip", "# styletest: ignore E226"])
          :: [("/r/b.py", [])]) false 0
      = styleLoop (fun _ _ => false) ([] ++ [("/r/b.py", [])]) false 0 :=
  style_skip_file_excluded (fun _ _ => false) "a.py"
    ["# styletest: skip", "# styletest: ignore E226"] [] [("/r/b.py", [])] false 0
    (by decide)

/-- Claim C6: a written message that starts with the root path is forwarded
as the root-relative form of that path, any other message is forwarded
unchanged, the underlying sink is flushed after each write, and in
particular with root /proj the message /proj/tests/a.py:1: E1 bad is
forwarded as tests/a.py:1: E1 bad. -/
theorem relativizer_write_spec (root : String) (sink : Sink) (msg : String) :
    (pyStartsWith msg root = false →
      FileForTesting.write root sink msg
        = { written := sink.written ++ [msg], flushes := sink.flushes + 1 })
    ∧ (pyStartsWith msg root = true →
      FileForTesting.write root sink msg
        = { written := sink.written ++ [relpath msg root], flushes := sink.flushes + 1 })
    ∧ FileForTesting.write "/proj" ⟨[], 0⟩ "/proj/tests/a.py:1: E1 bad"
        = ⟨["tests/a.py:1: E1 bad"], 1⟩ := by
  refine ⟨fun h => ?_, fun h => ?_, by decide⟩
  · simp [FileForTesting.write, h]
  · simp [FileForTesting.write, h]

/-- Claim C6 (witness): a message not starting with the root passes through
unchanged and the sink is flushed once more. -/
theorem relativizer_write_spec_w :
    FileForTesting.write "/proj" ⟨["x"], 3⟩ "hello"
      = { written := ["x"] ++ ["hello"], flushes := 3 + 1 } :=
  (relativizer_write_spec "/proj" ⟨["x"], 3⟩ "hello").1 (by decide)

/-- Claim C7: the files checked by the loop carry, as ignore set, exactly
the global ignore list followed by that file's own directive tokens, so one
file's tokens never reach another file's check, and every token a file's
directive scan yields is shaped like a diagnostic code: a letter from the
set EWFCN followed by digits. -/
theorem style_ignores_per_file (checker : String → List String → Bool)
    (files : List (String × List String)) (fail : Bool) (count : Nat)
    (lines : List String) (w : String) :
    ((styleLoop checker files fail count).2.2.filterMap evCheck
        = (nonSkipped files).map (fun f => (f.1, fileIgnores f)))
    ∧ (w ∈ (_get_style_test_options lines).2 → isIgnoreCode w.toList = true) := by
  refine ⟨styleLoop_checks checker files fail count, fun h => ?_⟩
  rcases styleOptionsAux_mem_ignores lines 0 false [] w h with hg | hc
  · exact absurd hg (by simp)
  · exact hc

/-- Claim C7 (witness): the token E226 from a concrete ignore directive is
code-shaped. -/
theorem style_ignores_per_file_w :
    isIgnoreCode "E226".toList = true :=
  (style_ignores_per_file (fun _ _ => false) [] false 0
      ["# styletest: ignore E226,E241"] "E226").2 (by decide)

/-- Claim C8 (counterexample): an exception outside the Exception hierarchy
raised by the wrapped call, here a SystemExit, is re-raised but the
debugging slots are left untouched, against the claim that every raised
exception is stored in the slots. -/
theorem pytest_runtest_call_nonexc_ce :
    (pytest_runtest_call (fun _ => some (⟨"SystemExit", false⟩, ["test_a"])) "item"
        ⟨none, none, none⟩).2 = ⟨none, none, none⟩
    ∧ (pytest_runtest_call (fun _ => some (⟨"SystemExit", false⟩, ["test_a"])) "item"
        ⟨none, none, none⟩).1 = some (⟨"SystemExit", false⟩, ["test_a"]) := by decide

/-- Claim C8 (amended): for every raise from the wrapped call, when the
exception is of the Exception hierarchy the wrapper stores its type, value
and traceback advanced one frame past the wrapper's own frame in the
debugging slots and re-raises it unchanged; an exception outside that
hierarchy propagates unchanged with the slots untouched; no exception is
swallowed or replaced. -/
theorem pytest_runtest_call_spec (orig : String → Option (PyExc × List String))
    (item : String) (slots : DebugSlots) (e : PyExc) (frames : List String)
    (h : orig item = some (e, frames)) :
    (e.isExcSubclass = true →
      pytest_runtest_call orig item slots
        = (some (e, frames), ⟨some e.typeName, some e, some frames⟩))
    ∧ (e.isExcSubclass = false →
      pytest_runtest_call orig item slots = (some (e, frames), slots)) := by
  refine ⟨fun hb => ?_, fun hb => ?_⟩ <;> simp [pytest_runtest_call, h, hb]

/-- Claim C8 (witness): a ValueError raised by the wrapped call is stored
in the slots with its traceback advanced past the wrapper frame, and
re-raised unchanged. -/
theorem pytest_runtest_call_spec_w :
    pytest_runtest_call (fun _ => some (⟨"ValueError", true⟩, ["test_b"])) "it"
        ⟨none, none, none⟩
      = (some (⟨"ValueError", true⟩, ["test_b"]),
         ⟨some "ValueError", some ⟨"ValueError", true⟩, some ["test_b"]⟩) :=
  (pytest_runtest_call_spec (fun _ => some (⟨"ValueError", true⟩, ["test_b"])) "it"
      ⟨none, none, none⟩ ⟨"ValueError", true⟩ ["test_b"] rfl).1 rfl

/-- Claim C9: test_unit leaves the working directory as it found it, for
any behavior of the test runner, returning or raising and even moving the
working directory itself, and its result is exactly the runner's result on
the prepared state. -/
theorem test_unit_frame (root cov_report : String)
    (pymain : String → ProcState → Except String Int × ProcState)
    (canEnable : Bool) (s : ProcState) :
    (test_unit root cov_report pymain canEnable s).2.cwd = s.cwd
    ∧ (test_unit root cov_report pymain canEnable s).1
        = (pymain (test_unit_args cov_report)
            (_enable_faulthandler canEnable (_clear_imageio { s with cwd := root }))).1 :=
  ⟨rfl, rfl⟩

/-- Claim C10: on a directive line containing the skip keyword the scan
sets the skip flag and collects no ignore tokens from that line, even when
the line also contains the ignore keyword; ignore tokens are collected only
from directive lines not containing the skip keyword. -/
theorem skip_beats_ignore_on_line (line : String) (rest : List String) (k : Nat)
    (s : Bool) (g : List String)
    (hm : pyStartsWith line "# styletest:" = true) (hk : k ≤ 20) :
    (pyContains line "skip" = true →
      styleOptionsAux k (line :: rest) s g = styleOptionsAux (k + 1) rest true g)
    ∧ (pyContains line "skip" = false → pyContains line "ignore" = true →
      styleOptionsAux k (line :: rest) s g
        = styleOptionsAux (k + 1) rest s (g ++ directiveIgnoreWords line)) := by
  have hk20 : ¬ k > 20 := by omega
  constructor
  · intro hs
    simp [styleOptionsAux, hk20, hm, hs]
  · intro hs hi
    simp [styleOptionsAux, hk20, hm, hs, hi]

/-- Claim C10 (witness): a directive line containing both keywords sets the
skip flag and contributes no tokens. -/
theorem skip_beats_ignore_on_line_w :
    styleOptionsAux 0 ["# styletest: skip ignore E226"] false []
      = styleOptionsAux 1 [] true [] :=
  (skip_beats_ignore_on_line "# styletest: skip ignore E226" [] 0 false []
      (by decide) (by decide)).1 (by decide)

end ImageioTesting
